import Mathlib

/-!
Verification of the LingSIP AI telephony dialog engine against its
natural-language specification.

The definitions below are a shallow embedding of the Go source:

* `internal/models` (script / step / session data model),
* `pkg/sip/ai_phone_engine.go` (the interpreter loop `executeScript` and
  the per-type step executors),
* `pkg/sip/ai_phone_audio.go` (`playTTSAudio`, `playAudioBlocking`,
  `listenForDTMF`, `evaluateCondition` and helpers),
* `pkg/sip/func_register.go` (`handleAck` session promotion),
* `pkg/sip/ua` (pending / active session tables).

External effects (UDP sockets, the GORM database, wall-clock time, the
TTS/ASR/LLM vendors) are modelled as explicit environments: a database
write becomes a pure record update, a channel read becomes a boolean
schedule indexed by loop iteration, and an adapter call becomes a value
supplied by the environment.  Go `int` is modelled as `Int`;
`uint16`/`uint32` arithmetic carries an explicit `% 2 ^ 16` / `% 2 ^ 32`.
-/

namespace LingSIP

/-! ## Session context and conversation (internal/models/ai_phone_sessions.go)

`SessionContext` is `map[string]interface{}` in Go; the engine only ever
stores booleans, ints and strings in it, so the value type is the closed
sum `CtxVal`.  The map is modelled as a first-match association list with
replace-on-set semantics. -/

/-- Value stored in a session context (`map[string]interface{}`). -/
inductive CtxVal
  | b (x : Bool)
  | i (x : Int)
  | s (x : String)
  deriving DecidableEq

/-- Session context: `Context map[string]interface{}` on `ScriptSession`. -/
def Context := List (String × CtxVal)

instance : DecidableEq Context := by
  unfold Context
  infer_instance

/-- Go map read `ctx[k]`. -/
def ctxGet (ctx : Context) (k : String) : Option CtxVal :=
  (ctx.find? fun p => p.1 == k).map Prod.snd

/-- Go map write `ctx[k] = v` (replace or insert). -/
def ctxSet (ctx : Context) (k : String) (v : CtxVal) : Context :=
  match ctx with
  | [] => [(k, v)]
  | (k2, v2) :: rest =>
    if k2 == k then (k, v) :: rest else (k2, v2) :: ctxSet rest k v

/-- Go map delete `delete(ctx, k)`. -/
def ctxDel (ctx : Context) (k : String) : Context :=
  ctx.filter fun p => p.1 != k

/-- Go `v, exists := ctx[k]; exists && v.(bool)`.  The engine stores only
`true` under the keys it asserts as `bool`, so the type assertion is
modelled as a match on the boolean constructor. -/
def ctxBoolTrue (ctx : Context) (k : String) : Bool :=
  match ctxGet ctx k with
  | some (.b x) => x
  | _ => false

/-- One entry of the conversation transcript (`models.ConversationMessage`,
timestamps omitted). -/
structure ConvMessage where
  role : String
  content : String
  stepID : String
  deriving DecidableEq

/-! ## Script data model (internal/models, `part_003` after the design doc) -/

/-- `models.StepType`. -/
inductive StepType
  | callout
  | playaudio
  | collect
  | transfer
  | hangup
  | condition
  | wait
  | record
  | dtmf
  deriving DecidableEq

/-- `models.StepData` restricted to the fields the engine reads. -/
structure StepData where
  prompt : String := ""
  welcome : String := ""
  speakerID : String := ""
  sliceTime : Int := 0
  condition : String := ""
  trueNext : String := ""
  falseNext : String := ""
  collectKey : String := ""
  audioText : String := ""
  waitTime : Int := 0
  dtmfTimeout : Int := 0
  dtmfMaxDigits : Int := 0
  dtmfTerminator : String := ""
  dtmfOptions : List (String × String) := []
  dtmfPrompt : String := ""
  nextStep : String := ""
  deriving DecidableEq

/-- `models.AIPhoneScriptStep` restricted to the fields the engine reads. -/
structure ScriptStep where
  stepID : String
  type : StepType
  data : StepData
  deriving DecidableEq

/-- `models.ScriptStatus`. -/
inductive ScriptStatus
  | draft
  | active
  | inactive
  | archived
  deriving DecidableEq

/-- `models.AIPhoneScript` restricted to the fields the engine reads.
`maxDuration` is in milliseconds; both bounds are Go `int`s. -/
structure AIPhoneScript where
  name : String := ""
  status : ScriptStatus := .draft
  startStepID : String := ""
  maxDuration : Int := 300000
  maxSteps : Int := 50
  steps : List ScriptStep := []
  deriving DecidableEq

/-- `(*AIPhoneScript).GetStepByID`: first step whose business id matches. -/
def AIPhoneScript.GetStepByID (s : AIPhoneScript) (stepID : String) : Option ScriptStep :=
  s.steps.find? fun st => st.stepID == stepID

/-- `(*AIPhoneScript).GetStartStep`. -/
def AIPhoneScript.GetStartStep (s : AIPhoneScript) : Option ScriptStep :=
  s.GetStepByID s.startStepID

/-- `models.SessionStatus`. -/
inductive SessionStatus
  | starting
  | running
  | completed
  | failed
  | timeout
  | cancelled
  | transferred
  deriving DecidableEq

/-! ## The interpreter loop (`executeScript`, ai_phone_engine.go / `part_004`)

The loop is driven by three external inputs, modelled as an environment
indexed by the loop iteration:

* `stopPending k` — whether `session.StopChan` has a pending signal when
  the `select` at iteration `k` runs;
* `timedOut k` — whether `time.Since(session.StartTime)` exceeds
  `MaxDuration` at iteration `k`;
* `execStep k step` — the `(nextStepID, err)` pair produced by
  `engine.executeStep` for the step executed at iteration `k`.

`markCompleted` / `markFailed` / `markTimeout` set the session status (in
memory and on the database record); they are modelled by the `status` and
`errorMessage` fields of the result.  `exitKind` records which `return` or
loop exit produced the result. -/

/-- Result of `engine.executeStep`: `(nextStepID string, err error)`. -/
inductive StepExecResult
  | ok (nextStepID : String)
  | err (msg : String)
  deriving DecidableEq

/-- External inputs of one run of `executeScript`. -/
structure EngineEnv where
  stopPending : Nat → Bool
  timedOut : Nat → Bool
  execStep : Nat → ScriptStep → StepExecResult

/-- Which exit of `executeScript` ended the run. -/
inductive ExitKind
  | loopExit
  | stopped
  | timedOut
  | stepFailed
  | nextNotFound
  deriving DecidableEq

/-- Observable final state of one run of `executeScript`. -/
structure RunResult where
  status : SessionStatus
  errorMessage : String
  stepCount : Int
  executed : List String
  exitKind : ExitKind
  deriving DecidableEq

/-- The `for` loop of `executeScript`, from the loop head.  The session
status is `running` on entry (set just before the loop).  The `fuel`
argument makes the recursion structural; every iteration that recurses
increments `stepCount` under the guard `stepCount < maxSteps`, so fuel
`(maxSteps - stepCount).toNat + 1` never runs out (`executeFrom_fuel`
below), and the fuel-exhaustion branch coincides with the loop exit.

The Go loop body is, in order: the loop condition
`CurrentStep != nil && StepCount < MaxSteps` (else fall through to
`markCompleted`); the `select` on `StopChan` (a pending stop returns with
the status still `running`); the `MaxDuration` check (`markTimeout`);
`executeStep` (an error calls `markFailed("Step execution failed: ...")`);
`StepCount++`; then the next-step computation.  An empty `nextStepID` hits
`break` inside the `select`, which in Go terminates only the `select`
statement, so the loop continues with `CurrentStep` unchanged.  A
non-empty `nextStepID` that resolves to no step calls
`markFailed("Next step not found: ...")`. -/
def executeFrom (script : AIPhoneScript) (env : EngineEnv) :
    Nat → Option ScriptStep → Int → Nat → List String → RunResult
  | _, none, stepCount, _, acc =>
    ⟨.completed, "", stepCount, acc, .loopExit⟩
  | 0, some _, stepCount, _, acc =>
    ⟨.completed, "", stepCount, acc, .loopExit⟩
  | fuel + 1, some step, stepCount, k, acc =>
    if stepCount < script.maxSteps then
      if env.stopPending k then
        ⟨.running, "", stepCount, acc, .stopped⟩
      else if env.timedOut k then
        ⟨.timeout, "Script execution timeout", stepCount, acc, .timedOut⟩
      else
        match env.execStep k step with
        | .err e =>
          ⟨.failed, "Step execution failed: " ++ e, stepCount,
            acc ++ [step.stepID], .stepFailed⟩
        | .ok nextStepID =>
          if nextStepID == "" then
            executeFrom script env fuel (some step) (stepCount + 1) (k + 1)
              (acc ++ [step.stepID])
          else
            match script.GetStepByID nextStepID with
            | none =>
              ⟨.failed, "Next step not found: " ++ nextStepID, stepCount + 1,
                acc ++ [step.stepID], .nextNotFound⟩
            | some st =>
              executeFrom script env fuel (some st) (stepCount + 1) (k + 1)
                (acc ++ [step.stepID])
    else
      ⟨.completed, "", stepCount, acc, .loopExit⟩

/-- One run of `executeScript` for a session freshly created by
`StartScript`: current step is the script's start step, `StepCount` is 0. -/
def executeScriptRun (script : AIPhoneScript) (env : EngineEnv) : RunResult :=
  executeFrom script env (script.maxSteps.toNat + 1) script.GetStartStep 0 0 []

/-- Fuel adequacy: any fuel larger than the remaining step budget yields
the same run, so the wrapper's choice of fuel in `executeScriptRun` does
not influence the semantics. -/
theorem executeFrom_fuel (script : AIPhoneScript) (env : EngineEnv) :
    ∀ fuel₁ fuel₂ : Nat, ∀ cur stepCount k acc,
      (script.maxSteps - stepCount).toNat < fuel₁ →
      (script.maxSteps - stepCount).toNat < fuel₂ →
      executeFrom script env fuel₁ cur stepCount k acc =
        executeFrom script env fuel₂ cur stepCount k acc := by
  intro fuel₁
  induction fuel₁ with
  | zero => omega
  | succ f₁ ih =>
    intro fuel₂ cur stepCount k acc h₁ h₂
    match fuel₂ with
    | 0 => omega
    | f₂ + 1 =>
      match cur with
      | none => rfl
      | some step =>
        simp only [executeFrom]
        by_cases hlt : stepCount < script.maxSteps
        · simp only [hlt, if_true]
          by_cases hstop : env.stopPending k
          · simp [hstop]
          · simp only [hstop, if_false, Bool.false_eq_true]
            by_cases htime : env.timedOut k
            · simp [htime]
            · simp only [htime, if_false, Bool.false_eq_true]
              match env.execStep k step with
              | .err e => rfl
              | .ok nextStepID =>
                simp only []
                by_cases hempty : nextStepID == ""
                · simp only [hempty, if_true]
                  exact ih _ _ _ _ _ (by omega) (by omega)
                · simp only [hempty, if_false, Bool.false_eq_true]
                  match script.GetStepByID nextStepID with
                  | none => rfl
                  | some st => exact ih _ _ _ _ _ (by omega) (by omega)
        · simp [hlt]

/-- Exit-kind / final-status correspondence of the interpreter loop: every
exit path sets the status that its `mark*` call (or absence of one) sets,
and in particular no path ever assigns the status `cancelled`. -/
theorem executeFrom_exit_status (script : AIPhoneScript) (env : EngineEnv) :
    ∀ fuel cur stepCount k acc,
      ((executeFrom script env fuel cur stepCount k acc).exitKind = .loopExit →
        (executeFrom script env fuel cur stepCount k acc).status = .completed) ∧
      ((executeFrom script env fuel cur stepCount k acc).exitKind = .stopped →
        (executeFrom script env fuel cur stepCount k acc).status = .running) ∧
      ((executeFrom script env fuel cur stepCount k acc).exitKind = .timedOut →
        (executeFrom script env fuel cur stepCount k acc).status = .timeout) ∧
      ((executeFrom script env fuel cur stepCount k acc).exitKind = .stepFailed →
        (executeFrom script env fuel cur stepCount k acc).status = .failed) ∧
      ((executeFrom script env fuel cur stepCount k acc).exitKind = .nextNotFound →
        (executeFrom script env fuel cur stepCount k acc).status = .failed) ∧
      (executeFrom script env fuel cur stepCount k acc).status ≠ .cancelled := by
  intro fuel
  induction fuel with
  | zero =>
    intro cur stepCount k acc
    match cur with
    | none => simp [executeFrom]
    | some step => simp [executeFrom]
  | succ f ih =>
    intro cur stepCount k acc
    match cur with
    | none => simp [executeFrom]
    | some step =>
      simp only [executeFrom]
      by_cases hlt : stepCount < script.maxSteps
      · simp only [hlt, if_true]
        by_cases hstop : env.stopPending k
        · simp [hstop]
        · simp only [hstop, if_false, Bool.false_eq_true]
          by_cases htime : env.timedOut k
          · simp [htime]
          · simp only [htime, if_false, Bool.false_eq_true]
            match env.execStep k step with
            | .err e => simp
            | .ok nextStepID =>
              simp only []
              by_cases hempty : nextStepID == ""
              · simp only [hempty, if_true]
                exact ih _ _ _ _
              · simp only [hempty, if_false, Bool.false_eq_true]
                match script.GetStepByID nextStepID with
                | none => simp
                | some st => exact ih _ _ _ _
      · simp [hlt]

/-! ### Concrete scripts and environments exercising the interpreter loop -/

/-- Script with a single step `a` and a step budget of one. -/
def oneStepScript : AIPhoneScript :=
  { startStepID := "a", maxSteps := 1, steps := [⟨"a", .wait, {}⟩] }

/-- Quiet environment whose step execution always selects step `a`. -/
def selfLoopEnv : EngineEnv :=
  ⟨fun _ => false, fun _ => false, fun _ _ => .ok "a"⟩

/-- Script with a single step `a` and a step budget of three. -/
def emptyNextScript : AIPhoneScript :=
  { startStepID := "a", maxSteps := 3, steps := [⟨"a", .playaudio, {}⟩] }

/-- Quiet environment whose step execution computes an empty next-step id. -/
def emptyNextEnv : EngineEnv :=
  ⟨fun _ => false, fun _ => false, fun _ _ => .ok ""⟩

/-- Environment in which the session timeout has expired before the first
iteration of the loop. -/
def expiredEnv : EngineEnv :=
  ⟨fun _ => false, fun _ => true, fun _ _ => .ok "a"⟩

/-- Environment with a stop signal pending from the first iteration on. -/
def stoppedEnv : EngineEnv :=
  ⟨fun _ => true, fun _ => false, fun _ _ => .ok "a"⟩

/-- C1 counterexample: a run of `executeScript` on a script whose step
budget is one executes one step, reaches `StepCount = MaxSteps`, exits the
loop, and is marked `completed` — so the interpreter does call
`markCompleted` for a session whose step count has reached
`Script.MaxSteps`. -/
theorem maxSteps_reached_marks_completed_cex :
    (executeScriptRun oneStepScript selfLoopEnv).stepCount =
        oneStepScript.maxSteps ∧
      (executeScriptRun oneStepScript selfLoopEnv).exitKind = .loopExit ∧
      (executeScriptRun oneStepScript selfLoopEnv).status = .completed := by
  decide

/-- C1 (amended): a run of `executeScript` that returns through the
`MaxDuration` check ends with status `timeout` (never `completed`), while
a run that leaves through the loop condition — which is how the
`MaxSteps` bound stops execution — is marked `completed`. -/
theorem timeout_exit_status_vs_loop_exit (script : AIPhoneScript)
    (env : EngineEnv) :
    ((executeScriptRun script env).exitKind = .timedOut →
      (executeScriptRun script env).status = .timeout ∧
        (executeScriptRun script env).status ≠ .completed) ∧
    ((executeScriptRun script env).exitKind = .loopExit →
      (executeScriptRun script env).status = .completed) := by
  have h := executeFrom_exit_status script env (script.maxSteps.toNat + 1)
    script.GetStartStep 0 0 []
  refine ⟨fun hx => ⟨h.2.2.1 hx, ?_⟩, fun hx => h.1 hx⟩
  rw [show executeScriptRun script env = executeFrom script env
    (script.maxSteps.toNat + 1) script.GetStartStep 0 0 [] from rfl] at hx ⊢
  rw [h.2.2.1 hx]
  intro hc
  exact SessionStatus.noConfusion hc

/-- Witness for `timeout_exit_status_vs_loop_exit` at a concrete run whose
session timeout fires on the first loop iteration. -/
theorem timeout_exit_status_vs_loop_exit_witness :
    (executeScriptRun oneStepScript expiredEnv).exitKind = .timedOut ∧
      (executeScriptRun oneStepScript expiredEnv).status = .timeout := by
  exact ⟨by decide,
    ((timeout_exit_status_vs_loop_exit oneStepScript expiredEnv).1
      (by decide)).1⟩

/-- C2: executing a step whose computed next-step identifier is the empty
string does not terminate the session there — the `break` exits only the
`select`, so the same step is re-executed until `StepCount` reaches
`MaxSteps` and only then the session is marked `completed`.  With a step
budget of three, step `a` (whose successor is empty) runs three times. -/
theorem empty_next_step_reexecutes_step :
    executeScriptRun emptyNextScript emptyNextEnv =
      ⟨.completed, "", 3, ["a", "a", "a"], .loopExit⟩ ∧
    (executeScriptRun emptyNextScript emptyNextEnv).executed ≠ ["a"] := by
  decide

/-- C5 counterexample: with a stop signal pending (the `handleBye` path
calls `StopSession`, which sends on `StopChan`), the interpreter loop
returns without marking any terminal status, so the session status stays
`running` — it is not `cancelled`. -/
theorem bye_stop_leaves_running_cex :
    (executeScriptRun oneStepScript stoppedEnv).exitKind = .stopped ∧
      (executeScriptRun oneStepScript stoppedEnv).status = .running ∧
      (executeScriptRun oneStepScript stoppedEnv).status ≠ .cancelled := by
  decide

/-- C5 (amended): no exit path of `executeScript` ever assigns the status
`cancelled`, and the exit taken when a pending stop signal is observed at
the top of the loop leaves the status at `running`. -/
theorem final_status_never_cancelled (script : AIPhoneScript)
    (env : EngineEnv) :
    (executeScriptRun script env).status ≠ .cancelled ∧
    ((executeScriptRun script env).exitKind = .stopped →
      (executeScriptRun script env).status = .running) := by
  have h := executeFrom_exit_status script env (script.maxSteps.toNat + 1)
    script.GetStartStep 0 0 []
  exact ⟨h.2.2.2.2.2, h.2.1⟩

/-- Witness for `final_status_never_cancelled` at a concrete run with a
pending stop signal. -/
theorem final_status_never_cancelled_witness :
    (executeScriptRun oneStepScript stoppedEnv).exitKind = .stopped ∧
      (executeScriptRun oneStepScript stoppedEnv).status = .running := by
  exact ⟨by decide,
    (final_status_never_cancelled oneStepScript stoppedEnv).2 (by decide)⟩

/-! ## The say-and-listen (callout) step (`executeCalloutStep`, `part_004`)

The step is driven by three external inputs: the result of each
`listenForUserInput` call (indexed by the value of `retryCount` at that
attempt — `retryCount` is incremented after every failed or empty attempt,
so attempt `n` runs with `retryCount = n`), the outcome of each
`playTTSAudio` call (keyed by the text played), and the reply produced by
`callAIService` (which never returns an error in the source: an LLM
failure degrades to the canned `getMockAIResponse`). -/

/-- Result of one `listenForUserInput` call: `(userText string, err error)`.
An empty `text` is the no-input case. -/
inductive ListenResult
  | err (msg : String)
  | text (s : String)
  deriving DecidableEq

/-- External inputs of one `executeCalloutStep` run. -/
structure CalloutEnv where
  listen : Nat → ListenResult
  ttsFail : String → Option String
  aiReply : String

/-- Outcome of `playTTSAudio`: an empty text returns `nil` immediately,
otherwise the TTS/RTP pipeline may fail with an error. -/
def CalloutEnv.playTTS (env : CalloutEnv) (text : String) : Option String :=
  if text == "" then none else env.ttsFail text

/-- The retry prompt texts chosen by the `switch retryCount` after an
empty attempt (`retryCount` is already incremented when the switch runs). -/
def calloutRetryPrompt : Nat → String
  | 1 => "您好，请问您能听到我说话吗？如果能听到请回应一下。"
  | 2 => "如果您能听到，请说话或者按任意键。"
  | _ => ""

instance {α β : Type} [DecidableEq α] [DecidableEq β] :
    DecidableEq (Except α β) := fun a b =>
  match a, b with
  | .ok x, .ok y =>
    if h : x = y then isTrue (by rw [h]) else
      isFalse (by intro hc; cases hc; exact h rfl)
  | .error x, .error y =>
    if h : x = y then isTrue (by rw [h]) else
      isFalse (by intro hc; cases hc; exact h rfl)
  | .ok _, .error _ => isFalse (by intro hc; cases hc)
  | .error _, .ok _ => isFalse (by intro hc; cases hc)

/-- Observable outcome of one `executeCalloutStep` run.  `speaks` lists the
texts passed to `playTTSAudio` in order (whether or not the call
succeeded), `timeoutsUsed` the per-attempt listen timeouts in
milliseconds, `promptsPlayed` the retry prompts among the speaks,
`transcript` the messages appended by `addMessage`, `ctx` the session
context after the step, and `result` the `(nextStepID, err)` pair. -/
structure CalloutResult where
  speaks : List String
  timeoutsUsed : List Int
  promptsPlayed : List String
  transcript : List ConvMessage
  ctx : Context
  result : Except String String
  deriving DecidableEq

/-- The retry loop of `executeCalloutStep` (`for retryCount <= maxRetries
&& !hasUserInput`), with `maxRetries = 2`.  The first attempt uses
`initialTimeout` (15 s), retries use `retryTimeout` (10 s).  A listen
error increments `retryCount` and continues (no prompt).  An empty result
increments `retryCount` and, while `retryCount <= maxRetries`, plays the
retry prompt for that count (a prompt playback error is only logged).  A
non-empty result appends the user message, queries the AI, appends the
assistant message, plays the reply (a playback error returns the error
with the context untouched), and ends the loop; the code after the loop
then deletes `no_user_response` and returns `data.NextStep`.  When the
loop ends with no user input, the code after it sets
`no_user_response = true` and `retry_count = retryCount`.  The `fuel`
argument makes the recursion structural; the loop runs at most three
times, and the wrapper supplies fuel 3, so the fuel-exhaustion branch
(which returns through the same no-input tail) is never the deciding one. -/
def calloutGo (env : CalloutEnv) (data : StepData) (stepID : String)
    (ctx : Context) :
    Nat → Nat → List String → List Int → List String → List ConvMessage →
    CalloutResult
  | 0, retryCount, speaks, timeouts, prompts, transcript =>
    ⟨speaks, timeouts, prompts, transcript,
      ctxSet (ctxSet ctx "no_user_response" (.b true)) "retry_count"
        (.i retryCount),
      .ok data.nextStep⟩
  | fuel + 1, retryCount, speaks, timeouts, prompts, transcript =>
    if retryCount ≤ 2 then
      let currentTimeout : Int := if retryCount > 0 then 10000 else 15000
      let timeouts2 := timeouts ++ [currentTimeout]
      match env.listen retryCount with
      | .err _ =>
        calloutGo env data stepID ctx fuel (retryCount + 1) speaks timeouts2
          prompts transcript
      | .text userText =>
        if userText == "" then
          if retryCount + 1 ≤ 2 then
            let promptText := calloutRetryPrompt (retryCount + 1)
            calloutGo env data stepID ctx fuel (retryCount + 1)
              (speaks ++ [promptText]) timeouts2 (prompts ++ [promptText])
              transcript
          else
            calloutGo env data stepID ctx fuel (retryCount + 1) speaks
              timeouts2 prompts transcript
        else
          let transcript2 := transcript ++ [⟨"user", userText, stepID⟩]
          let transcript3 := transcript2 ++ [⟨"assistant", env.aiReply, stepID⟩]
          match env.playTTS env.aiReply with
          | some e =>
            ⟨speaks ++ [env.aiReply], timeouts2, prompts, transcript3, ctx,
              .error ("failed to play AI response: " ++ e)⟩
          | none =>
            ⟨speaks ++ [env.aiReply], timeouts2, prompts, transcript3,
              ctxDel ctx "no_user_response", .ok data.nextStep⟩
    else
      ⟨speaks, timeouts, prompts, transcript,
        ctxSet (ctxSet ctx "no_user_response" (.b true)) "retry_count"
          (.i retryCount),
        .ok data.nextStep⟩

/-- One run of `executeCalloutStep`: play the welcome text when it is set
(a playback failure returns `failed to play welcome message`), then run
the retry loop. -/
def executeCalloutStep (env : CalloutEnv) (data : StepData) (stepID : String)
    (ctx : Context) : CalloutResult :=
  if data.welcome != "" then
    match env.playTTS data.welcome with
    | some e =>
      ⟨[data.welcome], [], [], [], ctx,
        .error ("failed to play welcome message: " ++ e)⟩
    | none => calloutGo env data stepID ctx 3 0 [data.welcome] [] [] []
  else
    calloutGo env data stepID ctx 3 0 [] [] [] []

/-! ### Context lookup lemmas -/

/-- Reading a key just written returns the written value. -/
theorem ctxGet_ctxSet_self (ctx : Context) (k : String) (v : CtxVal) :
    ctxGet (ctxSet ctx k v) k = some v := by
  induction ctx with
  | nil => simp [ctxGet, ctxSet, List.find?]
  | cons p rest ih =>
    obtain ⟨k2, v2⟩ := p
    by_cases h : k2 == k
    · simp [ctxGet, ctxSet, h, List.find?]
    · simp only [ctxSet, h, Bool.false_eq_true, if_false]
      simpa [ctxGet, List.find?, h] using ih

/-- Writing one key leaves reads of a different key unchanged. -/
theorem ctxGet_ctxSet_ne (ctx : Context) (k k2 : String) (v : CtxVal)
    (h : (k2 == k) = false) : ctxGet (ctxSet ctx k2 v) k = ctxGet ctx k := by
  induction ctx with
  | nil => simp [ctxGet, ctxSet, List.find?, h]
  | cons p rest ih =>
    obtain ⟨k3, v3⟩ := p
    by_cases h3 : k3 == k2
    · have hk3 : (k3 == k) = false := by
        have := eq_of_beq h3
        subst this
        exact h
      simp [ctxGet, ctxSet, h3, hk3, List.find?, h]
    · simp only [ctxSet, h3, Bool.false_eq_true, if_false]
      by_cases hk3 : k3 == k
      · simp [ctxGet, List.find?, hk3]
      · simpa [ctxGet, List.find?, hk3] using ih

/-- Reading a key just deleted returns `none`. -/
theorem ctxGet_ctxDel_self (ctx : Context) (k : String) :
    ctxGet (ctxDel ctx k) k = none := by
  induction ctx with
  | nil => simp [ctxGet, ctxDel, List.find?]
  | cons p rest ih =>
    obtain ⟨k2, v2⟩ := p
    by_cases h : k2 == k
    · simp only [ctxDel, List.filter] at ih ⊢
      have hb : (k2 != k) = false := by simp [bne, h]
      simp only [hb]
      exact ih
    · simp only [ctxDel, List.filter]
      have hb : (k2 != k) = true := by simp [bne, h]
      simp only [hb]
      simp only [ctxGet, List.find?, h, ctxDel] at ih ⊢
      exact ih

/-! ### Callout step: bound on the number of listen attempts -/

/-- Each loop iteration records exactly one listen timeout, so the number
of attempts grows by at most the available fuel. -/
theorem calloutGo_attempts_le (env : CalloutEnv) (data : StepData)
    (stepID : String) (ctx : Context) :
    ∀ fuel retryCount speaks timeouts prompts transcript,
      (calloutGo env data stepID ctx fuel retryCount speaks timeouts prompts
          transcript).timeoutsUsed.length ≤ timeouts.length + fuel := by
  intro fuel
  induction fuel with
  | zero => intro rc speaks timeouts prompts tr; simp [calloutGo]
  | succ f ih =>
    intro rc speaks timeouts prompts tr
    simp only [calloutGo]
    by_cases hrc : rc ≤ 2
    · simp only [hrc, if_true]
      match env.listen rc with
      | .err e =>
        calc (calloutGo env data stepID ctx f (rc + 1) speaks
                (timeouts ++ [if rc > 0 then 10000 else 15000]) prompts
                tr).timeoutsUsed.length
            ≤ (timeouts ++ [if rc > 0 then 10000 else 15000]).length + f :=
              ih _ _ _ _ _
          _ ≤ timeouts.length + (f + 1) := by
              simp only [List.length_append, List.length_cons, List.length_nil]
              omega
      | .text userText =>
        by_cases hempty : userText == ""
        · simp only [hempty, if_true]
          by_cases hrc2 : rc + 1 ≤ 2
          · simp only [hrc2, if_true]
            calc (calloutGo env data stepID ctx f (rc + 1)
                    (speaks ++ [calloutRetryPrompt (rc + 1)])
                    (timeouts ++ [if rc > 0 then 10000 else 15000])
                    (prompts ++ [calloutRetryPrompt (rc + 1)])
                    tr).timeoutsUsed.length
                ≤ (timeouts ++ [if rc > 0 then 10000 else 15000]).length + f :=
                  ih _ _ _ _ _
              _ ≤ timeouts.length + (f + 1) := by
                  simp only [List.length_append, List.length_cons,
                    List.length_nil]
                  omega
          · simp only [hrc2, if_false]
            calc (calloutGo env data stepID ctx f (rc + 1) speaks
                    (timeouts ++ [if rc > 0 then 10000 else 15000]) prompts
                    tr).timeoutsUsed.length
                ≤ (timeouts ++ [if rc > 0 then 10000 else 15000]).length + f :=
                  ih _ _ _ _ _
              _ ≤ timeouts.length + (f + 1) := by
                  simp only [List.length_append, List.length_cons,
                    List.length_nil]
                  omega
        · simp only [hempty, Bool.false_eq_true, if_false]
          match env.playTTS env.aiReply with
          | some e => simp
          | none => simp
    · simp [hrc]

/-! ### Claim C3: theorems about the callout turn loop -/

/-- Callout environment in which every listen attempt returns empty. -/
def allEmptyCalloutEnv : CalloutEnv :=
  ⟨fun _ => .text "", fun _ => none, "好的，祝您生活愉快"⟩

/-- Callout environment in which the first listen attempt succeeds. -/
def firstTurnCalloutEnv : CalloutEnv :=
  ⟨fun n => if n = 0 then .text "我想找工作" else .text "", fun _ => none,
    "好的，我已经记录了您的需求"⟩

/-- Callout step data of the seeded survey script's welcome step. -/
def surveyCalloutData : StepData :=
  { welcome := "你好，我是成都市金牛区就业局的工作人员",
    nextStep := "check_need" }

/-- C3 counterexample: when all three listen attempts return empty, the
step makes three attempts but plays only two retry prompts (the third
empty result is followed by no prompt because `retryCount` now exceeds
`maxRetries`), so a retry prompt is not played after each empty result. -/
theorem callout_two_prompts_for_three_empties_cex :
    (executeCalloutStep allEmptyCalloutEnv surveyCalloutData "welcome"
        []).timeoutsUsed.length = 3 ∧
      (executeCalloutStep allEmptyCalloutEnv surveyCalloutData "welcome"
          []).promptsPlayed.length = 2 ∧
      (executeCalloutStep allEmptyCalloutEnv surveyCalloutData "welcome"
          []).promptsPlayed =
        [calloutRetryPrompt 1, calloutRetryPrompt 2] := by
  decide

/-- C3 (amended): the callout step performs at most 3 listen attempts
(1 initial plus 2 retries) with a 15 s timeout for the first attempt and
10 s for each retry, and plays a retry prompt after each empty result
except the final one.  If all attempts return empty it sets
`context["no_user_response"] = true` and proceeds to the step's
`nextStep`; when attempt `n` returns a non-empty text it deletes that
flag, appends the user text and the assistant reply to the transcript,
and speaks the reply. -/
theorem callout_turn_loop (env : CalloutEnv) (data : StepData)
    (stepID : String) (ctx : Context) :
    (executeCalloutStep env data stepID ctx).timeoutsUsed.length ≤ 3 ∧
    (env.playTTS data.welcome = none →
      (∀ n < 3, env.listen n = .text "") →
      (executeCalloutStep env data stepID ctx).timeoutsUsed =
          [15000, 10000, 10000] ∧
        (executeCalloutStep env data stepID ctx).promptsPlayed =
          [calloutRetryPrompt 1, calloutRetryPrompt 2] ∧
        ctxGet (executeCalloutStep env data stepID ctx).ctx
            "no_user_response" = some (.b true) ∧
        (executeCalloutStep env data stepID ctx).result =
          .ok data.nextStep) ∧
    (∀ n t, n < 3 → (∀ m < n, env.listen m = .text "") →
      env.listen n = .text t → (t == "") = false →
      env.playTTS data.welcome = none → env.playTTS env.aiReply = none →
      (executeCalloutStep env data stepID ctx).timeoutsUsed =
          (List.range (n + 1)).map (fun m => if m = 0 then 15000 else 10000) ∧
        (executeCalloutStep env data stepID ctx).promptsPlayed =
          (List.range n).map (fun m => calloutRetryPrompt (m + 1)) ∧
        (executeCalloutStep env data stepID ctx).transcript =
          [⟨"user", t, stepID⟩, ⟨"assistant", env.aiReply, stepID⟩] ∧
        (executeCalloutStep env data stepID ctx).speaks.getLast? =
          some env.aiReply ∧
        ctxGet (executeCalloutStep env data stepID ctx).ctx
            "no_user_response" = none ∧
        (executeCalloutStep env data stepID ctx).result =
          .ok data.nextStep) := by
  refine ⟨?_, ?_, ?_⟩
  · by_cases hwel : data.welcome != ""
    · match hpt : env.playTTS data.welcome with
      | some e => simp [executeCalloutStep, hwel, hpt]
      | none =>
        have := calloutGo_attempts_le env data stepID ctx 3 0 [data.welcome]
          [] [] []
        simp only [List.length_nil] at this
        simpa [executeCalloutStep, hwel, hpt] using this
    · have := calloutGo_attempts_le env data stepID ctx 3 0 [] [] [] []
      simp only [List.length_nil] at this
      simpa [executeCalloutStep, hwel] using this
  · intro hw hall
    have h0 := hall 0 (by omega)
    have h1 := hall 1 (by omega)
    have h2 := hall 2 (by omega)
    have hget : ctxGet (ctxSet (ctxSet ctx "no_user_response" (.b true))
        "retry_count" (.i 3)) "no_user_response" = some (.b true) := by
      rw [ctxGet_ctxSet_ne _ _ _ _ (by decide), ctxGet_ctxSet_self]
    by_cases hwel : data.welcome != ""
    · simp [executeCalloutStep, hwel, hw, calloutGo, h0, h1, h2, hget]
    · simp [executeCalloutStep, hwel, calloutGo, h0, h1, h2, hget]
  · intro n t hn hprev hl ht hw hai
    have hdel := ctxGet_ctxDel_self ctx "no_user_response"
    interval_cases n
    · by_cases hwel : data.welcome != ""
      · simp [executeCalloutStep, hwel, hw, calloutGo, hl, ht, hai, hdel,
          List.getLast?_concat, List.range_succ, List.range_zero]
      · simp [executeCalloutStep, hwel, calloutGo, hl, ht, hai, hdel,
          List.getLast?_concat, List.range_succ, List.range_zero]
    · have h0 := hprev 0 (by omega)
      by_cases hwel : data.welcome != ""
      · simp [executeCalloutStep, hwel, hw, calloutGo, h0, hl, ht, hai, hdel,
          List.getLast?_concat, List.range_succ, List.range_zero]
      · simp [executeCalloutStep, hwel, calloutGo, h0, hl, ht, hai, hdel,
          List.getLast?_concat, List.range_succ, List.range_zero]
    · have h0 := hprev 0 (by omega)
      have h1 := hprev 1 (by omega)
      by_cases hwel : data.welcome != ""
      · simp [executeCalloutStep, hwel, hw, calloutGo, h0, h1, hl, ht, hai,
          hdel, List.getLast?_concat, List.range_succ, List.range_zero]
      · simp [executeCalloutStep, hwel, calloutGo, h0, h1, hl, ht, hai, hdel,
          List.getLast?_concat, List.range_succ, List.range_zero]

/-- Witness for `callout_turn_loop`: the all-empty clause at a concrete
environment where nobody speaks, and the success clause at a concrete
environment where the first attempt hears the caller. -/
theorem callout_turn_loop_witness :
    (ctxGet (executeCalloutStep allEmptyCalloutEnv surveyCalloutData
        "welcome" []).ctx "no_user_response" = some (.b true) ∧
      (executeCalloutStep allEmptyCalloutEnv surveyCalloutData "welcome"
          []).result = .ok "check_need") ∧
    (executeCalloutStep firstTurnCalloutEnv surveyCalloutData "welcome"
        []).transcript =
      [⟨"user", "我想找工作", "welcome"⟩,
        ⟨"assistant", "好的，我已经记录了您的需求", "welcome"⟩] := by
  refine ⟨?_, ?_⟩
  · have h := (callout_turn_loop allEmptyCalloutEnv surveyCalloutData
      "welcome" []).2.1 (by decide) (fun n _ => rfl)
    exact ⟨h.2.2.1, h.2.2.2⟩
  · have h := (callout_turn_loop firstTurnCalloutEnv surveyCalloutData
      "welcome" []).2.2 0 "我想找工作" (by omega)
      (fun m hm => absurd hm (by omega)) (by decide) (by decide) (by decide)
      (by decide)
    exact h.2.2.1

/-! ## Condition evaluation (`evaluateCondition`, ai_phone_audio.go)

The Go helper `contains(text, keywords)` scans byte windows of `text` for
each keyword.  Texts are modelled as character lists; a byte-level
occurrence of one valid UTF-8 string inside another always falls on a
character boundary (UTF-8 is self-synchronising), so the character-level
scan decides the same predicate.  The length guards of the Go code are
kept. -/

/-- Sliding-window scan: does `kw` occur as a contiguous block of `text`? -/
def windowMatch (kw : List Char) : List Char → Bool
  | [] => kw.isPrefixOf []
  | c :: rest => kw.isPrefixOf (c :: rest) || windowMatch kw rest

/-- Go `contains(text, keywords)`: true when some keyword is non-empty, no
longer than the text, and occurs in it. -/
def goContains (text : String) (keywords : List String) : Bool :=
  keywords.any fun keyword =>
    decide (0 < keyword.length) && decide (keyword.length ≤ text.length) &&
      windowMatch keyword.toList text.toList

/-- The in-memory state of a `ScriptSession` that condition evaluation
reads: the context dictionary and the conversation transcript. -/
structure SessionModel where
  context : Context
  conversation : List ConvMessage
  deriving DecidableEq

/-- `engine.isUserEngaged`: some non-empty user message exists and the
context does not flag `no_user_response`. -/
def isUserEngaged (s : SessionModel) : Bool :=
  let userMessageCount :=
    (s.conversation.filter fun m => m.role == "user" && 0 < m.content.length).length
  if 0 < userMessageCount then !ctxBoolTrue s.context "no_user_response"
  else false

/-- The `user_satisfied` scan: walk the conversation in order; the first
user message containing a positive keyword decides `true`, the first
containing a negative keyword decides `false`; default `true`. -/
def userSatisfiedScan : List ConvMessage → Bool
  | [] => true
  | m :: rest =>
    if m.role == "user" then
      if goContains m.content ["满意", "好的", "可以", "谢谢", "行", "好"] then
        true
      else if goContains m.content
          ["不满意", "不好", "不行", "不可以", "不对"] then
        false
      else
        userSatisfiedScan rest
    else
      userSatisfiedScan rest

/-- `engine.evaluateCondition` (ai_phone_audio.go, the authoritative
version with six predicates).  The `has_job_need` branch can write
`needs_further_inquiry` into the context, so the result carries the
(possibly updated) context; `err` is always `nil` in the source, so no
error component is modelled.  The recognised predicate names are
`has_job_need`, `needs_further_inquiry`, `user_satisfied`,
`has_user_response`, `user_engaged` and `collect_success`; any other name
falls to the default branch, which logs a warning and returns
`false, nil`. -/
def evaluateCondition (s : SessionModel) (condition : String) :
    Bool × Context :=
  let engaged := isUserEngaged s
  if condition == "has_job_need" then
    if !engaged then (false, s.context)
    else
      let userMsgs := s.conversation.filter fun m => m.role == "user"
      let hasPositive := userMsgs.any fun m =>
        goContains m.content
          ["需要", "想要", "找工作", "就业", "培训", "创业", "失业", "工作",
            "招聘"]
      let hasNegative := userMsgs.any fun m =>
        goContains m.content
          ["不需要", "不用", "没有", "不是", "不对", "不要", "没兴趣", "不找"]
      let hasGreeting := userMsgs.any fun m =>
        goContains m.content
          ["你好", "喂", "听到", "可以", "能听", "在吗", "什么事"]
      if hasPositive && !hasNegative then (true, s.context)
      else if hasNegative then (false, s.context)
      else if hasGreeting && !hasPositive && !hasNegative then
        (false, ctxSet s.context "needs_further_inquiry" (.b true))
      else (false, s.context)
  else if condition == "needs_further_inquiry" then
    (ctxBoolTrue s.context "needs_further_inquiry", s.context)
  else if condition == "user_satisfied" then
    (userSatisfiedScan s.conversation, s.context)
  else if condition == "has_user_response" then
    (isUserEngaged s, s.context)
  else if condition == "user_engaged" then
    (isUserEngaged s, s.context)
  else if condition == "collect_success" then
    if ctxBoolTrue s.context "collect_failed" then (false, s.context)
    else (isUserEngaged s, s.context)
  else
    (false, s.context)

/-- `engine.executeConditionStep`: evaluate the step's condition and
return `trueNext` or `falseNext`; `evaluateCondition` never errors, so
the step never fails. -/
def executeConditionStep (s : SessionModel) (data : StepData) :
    Except String String × Context :=
  let r := evaluateCondition s data.condition
  (.ok (if r.1 then data.trueNext else data.falseNext), r.2)

/-- C9: a condition step whose condition name is outside the recognised
set evaluates to `false` with no error and an unchanged context, so the
step completes successfully with the `falseNext` successor instead of
failing the session. -/
theorem unknown_condition_takes_falseNext (s : SessionModel)
    (data : StepData)
    (h1 : data.condition ≠ "has_job_need")
    (h2 : data.condition ≠ "needs_further_inquiry")
    (h3 : data.condition ≠ "user_satisfied")
    (h4 : data.condition ≠ "has_user_response")
    (h5 : data.condition ≠ "user_engaged")
    (h6 : data.condition ≠ "collect_success") :
    evaluateCondition s data.condition = (false, s.context) ∧
      executeConditionStep s data = (.ok data.falseNext, s.context) := by
  have e1 : (data.condition == "has_job_need") = false := by
    simpa using h1
  have e2 : (data.condition == "needs_further_inquiry") = false := by
    simpa using h2
  have e3 : (data.condition == "user_satisfied") = false := by
    simpa using h3
  have e4 : (data.condition == "has_user_response") = false := by
    simpa using h4
  have e5 : (data.condition == "user_engaged") = false := by
    simpa using h5
  have e6 : (data.condition == "collect_success") = false := by
    simpa using h6
  constructor
  · simp [evaluateCondition, e1, e2, e3, e4, e5, e6]
  · simp [executeConditionStep, evaluateCondition, e1, e2, e3, e4, e5, e6]

/-- Witness for `unknown_condition_takes_falseNext` at a concrete session
and a condition name outside the recognised set. -/
theorem unknown_condition_takes_falseNext_witness :
    evaluateCondition ⟨[], [⟨"user", "你好", "welcome"⟩]⟩
        "is_weekend" = (false, []) ∧
      executeConditionStep ⟨[], [⟨"user", "你好", "welcome"⟩]⟩
        { condition := "is_weekend", trueNext := "a", falseNext := "b" } =
        (.ok "b", []) := by
  exact unknown_condition_takes_falseNext
    ⟨[], [⟨"user", "你好", "welcome"⟩]⟩
    { condition := "is_weekend", trueNext := "a", falseNext := "b" }
    (by decide) (by decide) (by decide) (by decide) (by decide) (by decide)

/-! ## DTMF collection (`listenForDTMF` and `executeDTMFStep`)

`listenForDTMF` reads RTP packets until the timeout or until enough
digits arrived; the packets that arrive from the caller's address within
the timeout are modelled as a list.  Every `dtmfMap` value is a single
ASCII character, so the collected digit string is modelled as a character
list (`dtmfInput[:len(dtmfInput)-1]` drops one byte, i.e. one digit). -/

/-- An inbound RTP packet as relevant to DTMF detection: payload type and
payload bytes. -/
structure RTPIn where
  payloadType : Nat
  payload : List Nat
  deriving DecidableEq

/-- The `dtmfMap` of `listenForDTMF`: telephone-event codes 0–15. -/
def dtmfMap : Nat → Option Char
  | 0 => some '0'
  | 1 => some '1'
  | 2 => some '2'
  | 3 => some '3'
  | 4 => some '4'
  | 5 => some '5'
  | 6 => some '6'
  | 7 => some '7'
  | 8 => some '8'
  | 9 => some '9'
  | 10 => some '*'
  | 11 => some '#'
  | 12 => some 'A'
  | 13 => some 'B'
  | 14 => some 'C'
  | 15 => some 'D'
  | _ => none

/-- The collection loop of `listenForDTMF`: while fewer than `maxDigits`
digits were collected, read a packet; a telephone-event packet (payload
type 101, at least 4 payload bytes) whose event code maps to a digit
appends it; a digit equal to the terminator is appended, stripped again,
and ends the loop; audio packets (type 0) and everything else are
skipped. -/
def dtmfCollect (terminator : String) (maxDigits : Int) :
    List RTPIn → List Char → List Char
  | [], input => input
  | p :: rest, input =>
    if (input.length : Int) < maxDigits then
      if p.payloadType == 101 && decide (4 ≤ p.payload.length) then
        match p.payload.head? with
        | none => dtmfCollect terminator maxDigits rest input
        | some event =>
          match dtmfMap event with
          | none => dtmfCollect terminator maxDigits rest input
          | some digit =>
            if String.singleton digit == terminator then
              (input ++ [digit]).dropLast
            else
              dtmfCollect terminator maxDigits rest (input ++ [digit])
      else
        dtmfCollect terminator maxDigits rest input
    else
      input

/-- External inputs of one `executeDTMFStep` run: the packets that arrive
before the DTMF timeout and the TTS outcome for the prompt. -/
structure DTMFEnv where
  packets : List RTPIn
  ttsFail : String → Option String

/-- Outcome of `playTTSAudio` for the DTMF prompt: an empty text returns
`nil` immediately, otherwise the TTS/RTP pipeline may fail. -/
def DTMFEnv.playTTS (env : DTMFEnv) (text : String) : Option String :=
  if text == "" then none else env.ttsFail text

/-- Observable outcome of one `executeDTMFStep` run.  `timeoutUsed`,
`maxDigitsUsed` and `terminatorUsed` are the arguments passed to
`listenForDTMF` after the defaulting; `input` is the collected digit
string. -/
structure DTMFResult where
  speaks : List String
  timeoutUsed : Int
  maxDigitsUsed : Int
  terminatorUsed : String
  input : String
  transcript : List ConvMessage
  result : Except String String
  deriving DecidableEq

/-- `engine.executeDTMFStep` (`part_004`): optionally speak `dtmfPrompt`
(a playback failure fails the step), apply the defaults (10 s timeout,
1 digit, terminator `#`), collect digits, and choose the successor:
`falseNext` on empty input, `dtmfOptions[input]` when that key exists,
else `nextStep`.  (`listenForDTMF` can only return an error when the
stored client address fails to parse, which is outside this model; that
error path also selects `falseNext`.) -/
def executeDTMFStep (env : DTMFEnv) (data : StepData) (stepID : String) :
    DTMFResult :=
  let timeout : Int := if data.dtmfTimeout == 0 then 10000 else data.dtmfTimeout
  let maxDigits : Int :=
    if data.dtmfMaxDigits == 0 then 1 else data.dtmfMaxDigits
  let terminator : String :=
    if data.dtmfTerminator == "" then "#" else data.dtmfTerminator
  match env.playTTS data.dtmfPrompt with
  | some e =>
    ⟨if data.dtmfPrompt == "" then [] else [data.dtmfPrompt], 0, 0, "", "",
      [], .error ("failed to play DTMF prompt: " ++ e)⟩
  | none =>
    let speaks := if data.dtmfPrompt == "" then [] else [data.dtmfPrompt]
    let dtmfInput : String :=
      ⟨dtmfCollect terminator maxDigits env.packets []⟩
    if dtmfInput == "" then
      ⟨speaks, timeout, maxDigits, terminator, dtmfInput, [],
        .ok data.falseNext⟩
    else
      let transcript := [⟨"user", "DTMF: " ++ dtmfInput, stepID⟩]
      match data.dtmfOptions.find? fun opt => opt.1 == dtmfInput with
      | some opt =>
        ⟨speaks, timeout, maxDigits, terminator, dtmfInput, transcript,
          .ok opt.2⟩
      | none =>
        ⟨speaks, timeout, maxDigits, terminator, dtmfInput, transcript,
          .ok data.nextStep⟩

/-- The collected digit string never exceeds the digit bound (a negative
or zero bound collects nothing beyond the given prefix). -/
theorem dtmfCollect_length_le (terminator : String) (maxDigits : Int) :
    ∀ packets input,
      ((dtmfCollect terminator maxDigits packets input).length : Int) ≤
        max maxDigits (input.length : Int) := by
  intro packets
  induction packets with
  | nil =>
    intro input
    simp only [dtmfCollect]
    exact le_max_right maxDigits (input.length : Int)
  | cons p rest ih =>
    intro input
    by_cases hlt : (input.length : Int) < maxDigits
    · by_cases hpt2 : p.payloadType == 101 && decide (4 ≤ p.payload.length)
      · cases hev : p.payload.head? with
        | none =>
          simp only [dtmfCollect, hlt, if_true, hpt2, hev]
          exact ih input
        | some event =>
          cases hd : dtmfMap event with
          | none =>
            simp only [dtmfCollect, hlt, if_true, hpt2, hev, hd]
            exact ih input
          | some digit =>
            by_cases hterm : String.singleton digit == terminator
            · simp only [dtmfCollect, hlt, if_true, hpt2, hev, hd, hterm]
              have hlen : ((input ++ [digit]).dropLast.length : Int) =
                  (input.length : Int) := by simp
              rw [hlen]
              exact le_max_right _ _
            · simp only [dtmfCollect, hlt, if_true, hpt2, hev, hd, hterm,
                Bool.false_eq_true, if_false]
              have h2 := ih (input ++ [digit])
              simp only [List.length_append, List.length_cons,
                List.length_nil] at h2
              have hm : max maxDigits ((input.length : Int) + 1) =
                  maxDigits := max_eq_left (by omega)
              rw [Nat.cast_add, Nat.cast_one, hm] at h2
              exact h2.trans (le_max_left _ _)
      · simp only [dtmfCollect, hlt, if_true, hpt2, Bool.false_eq_true,
          if_false]
        exact ih input
    · simp only [dtmfCollect, hlt, if_false]
      exact le_max_right _ _


/-! ### Claim C8: theorems about the DTMF step -/


theorem dtmfCollect_terminator_stops (terminator : String) (maxDigits : Int)
    (p : RTPIn) (rest : List RTPIn) (input : List Char) (event : Nat)
    (digit : Char)
    (hlt : (input.length : Int) < maxDigits)
    (hp : p.payloadType = 101) (hlen : 4 ≤ p.payload.length)
    (hev : p.payload.head? = some event) (hd : dtmfMap event = some digit)
    (hterm : (String.singleton digit == terminator) = true) :
    dtmfCollect terminator maxDigits (p :: rest) input = input := by
  simp only [dtmfCollect, hlt, if_true, hp, hlen, hev, hd, hterm]
  simp

theorem dtmf_step_semantics (env : DTMFEnv) (data : StepData)
    (stepID : String)
    (hpt : env.playTTS data.dtmfPrompt = none) :
    (executeDTMFStep env data stepID).speaks =
        (if data.dtmfPrompt == "" then [] else [data.dtmfPrompt]) ∧
    (executeDTMFStep env data stepID).timeoutUsed =
        (if data.dtmfTimeout == 0 then 10000 else data.dtmfTimeout) ∧
    (executeDTMFStep env data stepID).maxDigitsUsed =
        (if data.dtmfMaxDigits == 0 then 1 else data.dtmfMaxDigits) ∧
    (executeDTMFStep env data stepID).terminatorUsed =
        (if data.dtmfTerminator == "" then "#" else data.dtmfTerminator) ∧
    (executeDTMFStep env data stepID).input =
        String.mk (dtmfCollect (executeDTMFStep env data stepID).terminatorUsed
          (executeDTMFStep env data stepID).maxDigitsUsed env.packets []) ∧
    ((executeDTMFStep env data stepID).input.length : Int) ≤
        max (executeDTMFStep env data stepID).maxDigitsUsed 0 ∧
    ((executeDTMFStep env data stepID).input = "" →
      (executeDTMFStep env data stepID).result = .ok data.falseNext ∧
        (executeDTMFStep env data stepID).transcript = []) ∧
    ((executeDTMFStep env data stepID).input ≠ "" →
      (executeDTMFStep env data stepID).result =
          .ok (match data.dtmfOptions.find? fun opt =>
                opt.1 == (executeDTMFStep env data stepID).input with
              | some opt => opt.2
              | none => data.nextStep) ∧
        (executeDTMFStep env data stepID).transcript =
          [⟨"user", "DTMF: " ++ (executeDTMFStep env data stepID).input,
            stepID⟩]) := by
  simp only [executeDTMFStep, hpt]
  by_cases hin : (String.mk (dtmfCollect
      (if data.dtmfTerminator == "" then "#" else data.dtmfTerminator)
      (if data.dtmfMaxDigits == 0 then 1 else data.dtmfMaxDigits)
      env.packets []) == "")
  · simp only [hin, if_true]
    refine ⟨trivial, trivial, trivial, trivial, ?_, ?_, ?_, ?_⟩
    · trivial
    · have h := dtmfCollect_length_le
        (if data.dtmfTerminator == "" then "#" else data.dtmfTerminator)
        (if data.dtmfMaxDigits == 0 then 1 else data.dtmfMaxDigits)
        env.packets []
      simp only [List.length_nil, Nat.cast_zero] at h
      simpa [String.length] using h
    · intro _
      exact ⟨trivial, trivial⟩
    · intro hne
      exact absurd (by simpa [String.ext_iff] using hin) hne
  · simp only [hin, Bool.false_eq_true, if_false]
    cases hfind : data.dtmfOptions.find? fun opt =>
        opt.1 == String.mk (dtmfCollect
          (if data.dtmfTerminator == "" then "#" else data.dtmfTerminator)
          (if data.dtmfMaxDigits == 0 then 1 else data.dtmfMaxDigits)
          env.packets []) with
    | none =>
      simp only [hfind]
      refine ⟨trivial, trivial, trivial, trivial, trivial, ?_, ?_, ?_⟩
      · have h := dtmfCollect_length_le
          (if data.dtmfTerminator == "" then "#" else data.dtmfTerminator)
          (if data.dtmfMaxDigits == 0 then 1 else data.dtmfMaxDigits)
          env.packets []
        simp only [List.length_nil, Nat.cast_zero] at h
        simpa [String.length] using h
      · intro heq
        exact absurd (by simpa [String.ext_iff] using heq)
          (by simpa [String.ext_iff] using hin)
      · intro _
        exact ⟨trivial, trivial⟩
    | some opt =>
      simp only [hfind]
      refine ⟨trivial, trivial, trivial, trivial, trivial, ?_, ?_, ?_⟩
      · have h := dtmfCollect_length_le
          (if data.dtmfTerminator == "" then "#" else data.dtmfTerminator)
          (if data.dtmfMaxDigits == 0 then 1 else data.dtmfMaxDigits)
          env.packets []
        simp only [List.length_nil, Nat.cast_zero] at h
        simpa [String.length] using h
      · intro heq
        exact absurd (by simpa [String.ext_iff] using heq)
          (by simpa [String.ext_iff] using hin)
      · intro _
        exact ⟨trivial, trivial⟩

/-- Concrete DTMF environment: the caller keys `1`, an audio packet
passes, then `2`. -/
def dtmfSampleEnv : DTMFEnv :=
  ⟨[⟨101, [1, 0, 0, 160]⟩, ⟨0, [0, 0, 0, 0]⟩, ⟨101, [2, 0, 0, 160]⟩],
    fun _ => none⟩

/-- Concrete DTMF step data: a prompt, two digits, an option for `12`. -/
def dtmfSampleData : StepData :=
  { dtmfPrompt := "请按键选择", dtmfMaxDigits := 2,
    dtmfOptions := [("12", "sales")], nextStep := "n", falseNext := "f" }

/-- Witness for `dtmf_step_semantics` at a concrete run where the caller
keys `12` and the option map routes to `sales`. -/
theorem dtmf_step_semantics_witness :
    (executeDTMFStep dtmfSampleEnv dtmfSampleData "menu").timeoutUsed =
        10000 ∧
      (executeDTMFStep dtmfSampleEnv dtmfSampleData "menu").input = "12" ∧
      (executeDTMFStep dtmfSampleEnv dtmfSampleData "menu").result =
        .ok "sales" := by
  have h := dtmf_step_semantics dtmfSampleEnv dtmfSampleData "menu"
    (by decide)
  refine ⟨by simpa using h.2.1, ?_, ?_⟩
  · rw [h.2.2.2.2.1]
    decide
  · rw [(h.2.2.2.2.2.2.2 (by decide)).1]
    decide

/-! ## Outbound RTP pacing (`playAudioBlocking`, ai_phone_audio.go)

`playAudioBlocking` chunks the PCM samples into 160-sample packets.  Each
packet's payload is `make([]byte, end-i)` filled with one µ-law byte per
sample, so the payload length equals the chunk's sample count; the µ-law
byte values themselves (the `linearToMulaw` codec is not part of the
repository sources) do not enter the header bookkeeping.  The sequence
number is a Go `uint16` starting at 1 and the timestamp a `uint32`
starting at 0, so the increments carry `% 2 ^ 16` and `% 2 ^ 32`. -/

/-- Header fields and payload size of one outbound RTP packet. -/
structure RTPOut where
  seq : Nat
  timestamp : Nat
  payloadLen : Nat
  deriving DecidableEq

/-- The send loop of `playAudioBlocking` (`for i := 0; i < len(audioData);
i += samplesPerPacket` with `samplesPerPacket = 160`).  The `fuel`
argument makes the recursion structural; each iteration consumes at least
one sample, so `audioData.length` fuel suffices (the wrapper passes
exactly that). -/
def playChunks : Nat → List Int → Nat → Nat → List RTPOut
  | 0, _, _, _ => []
  | _ + 1, [], _, _ => []
  | fuel + 1, a :: rest, seq, ts =>
    let chunk := (a :: rest).take 160
    ⟨seq, ts, chunk.length⟩ ::
      playChunks fuel ((a :: rest).drop 160) ((seq + 1) % 65536)
        ((ts + chunk.length) % 4294967296)

/-- The packets sent by one `playAudioBlocking` call: sequence number
initialised to 1, timestamp to 0, SSRC a fixed value per call. -/
def playAudioBlockingPackets (audioData : List Int) : List RTPOut :=
  playChunks audioData.length audioData 1 0

/-- The packets sent over a whole session, which performs one
`playAudioBlocking` call per spoken text, in order. -/
def sessionPackets (plays : List (List Int)) : List RTPOut :=
  (plays.map playAudioBlockingPackets).flatten

/-- The first packet of a chunked send carries the initial sequence
number and timestamp. -/
theorem playChunks_head (fuel : Nat) (audio : List Int) (seq ts : Nat)
    (h : 0 < (playChunks fuel audio seq ts).length) :
    ((playChunks fuel audio seq ts).get ⟨0, h⟩).seq = seq ∧
      ((playChunks fuel audio seq ts).get ⟨0, h⟩).timestamp = ts := by
  match fuel, audio with
  | 0, _ => simp [playChunks] at h
  | _ + 1, [] => simp [playChunks] at h
  | fuel + 1, a :: rest => exact ⟨rfl, rfl⟩

/-- Adjacent packets of one chunked send: the sequence number advances by
exactly 1 modulo `2 ^ 16` and the timestamp by the previous packet's
payload sample count modulo `2 ^ 32`. -/
theorem playChunks_adjacent :
    ∀ (fuel : Nat) (audio : List Int) (seq ts k : Nat)
      (hk : k + 1 < (playChunks fuel audio seq ts).length)
      (hk0 : k < (playChunks fuel audio seq ts).length),
      ((playChunks fuel audio seq ts).get ⟨k + 1, hk⟩).seq =
        (((playChunks fuel audio seq ts).get ⟨k, hk0⟩).seq + 1) % 65536 ∧
      ((playChunks fuel audio seq ts).get ⟨k + 1, hk⟩).timestamp =
        (((playChunks fuel audio seq ts).get ⟨k, hk0⟩).timestamp +
          ((playChunks fuel audio seq ts).get ⟨k, hk0⟩).payloadLen) %
            4294967296 := by
  intro fuel
  induction fuel with
  | zero =>
    intro audio seq ts k hk hk0
    simp [playChunks] at hk
  | succ f ih =>
    intro audio seq ts k hk hk0
    match audio with
    | [] => simp [playChunks] at hk
    | a :: rest =>
      match k with
      | 0 =>
        simp only [playChunks, List.get] at hk ⊢
        have htail : 0 < (playChunks f ((a :: rest).drop 160)
            ((seq + 1) % 65536)
            ((ts + ((a :: rest).take 160).length) % 4294967296)).length := by
          simpa [playChunks] using hk
        have hh := playChunks_head f ((a :: rest).drop 160)
          ((seq + 1) % 65536)
          ((ts + ((a :: rest).take 160).length) % 4294967296) htail
        exact ⟨hh.1, hh.2⟩
      | k + 1 =>
        simp only [playChunks, List.get] at hk hk0 ⊢
        exact ih ((a :: rest).drop 160) ((seq + 1) % 65536)
          ((ts + ((a :: rest).take 160).length) % 4294967296) k
          (by simpa [playChunks] using hk)
          (by simpa [playChunks] using hk0)

set_option maxRecDepth 8000

/-- Two spoken texts in one session: 161 samples, then 1 sample. -/
def twoPlays : List (List Int) := [List.replicate 161 0, [0]]

/-- C6 counterexample: over a session with two `playAudioBlocking` calls,
the outbound sequence numbers are 1, 2, 1 — each call re-initialises the
sequence number to 1 and the timestamp to 0, so across the whole session
they are not strictly increasing by 1 per packet. -/
theorem rtp_seq_not_monotone_across_session_cex :
    (sessionPackets twoPlays).map RTPOut.seq = [1, 2, 1] ∧
      ((sessionPackets twoPlays).get ⟨2, by decide⟩).seq <
        ((sessionPackets twoPlays).get ⟨1, by decide⟩).seq ∧
      (sessionPackets twoPlays).map RTPOut.timestamp = [0, 160, 0] := by
  refine ⟨by decide, by decide, by decide⟩

/-- C6 (amended): within one `playAudioBlocking` call the first packet
carries sequence number 1 and timestamp 0, consecutive packets differ by
exactly 1 in sequence number (modulo `2 ^ 16`) and by the previous
packet's payload sample count in timestamp (modulo `2 ^ 32`); both
counters restart at every call, so they are not monotone across the
session. -/
theorem rtp_within_play_increments (audioData : List Int) (k : Nat)
    (hk : k + 1 < (playAudioBlockingPackets audioData).length)
    (hk0 : k < (playAudioBlockingPackets audioData).length)
    (h0 : 0 < (playAudioBlockingPackets audioData).length) :
    ((playAudioBlockingPackets audioData).get ⟨0, h0⟩).seq = 1 ∧
      ((playAudioBlockingPackets audioData).get ⟨0, h0⟩).timestamp = 0 ∧
      ((playAudioBlockingPackets audioData).get ⟨k + 1, hk⟩).seq =
        (((playAudioBlockingPackets audioData).get ⟨k, hk0⟩).seq + 1) %
          65536 ∧
      ((playAudioBlockingPackets audioData).get ⟨k + 1, hk⟩).timestamp =
        (((playAudioBlockingPackets audioData).get ⟨k, hk0⟩).timestamp +
          ((playAudioBlockingPackets audioData).get ⟨k, hk0⟩).payloadLen) %
            4294967296 := by
  have hh := playChunks_head audioData.length audioData 1 0 h0
  have ha := playChunks_adjacent audioData.length audioData 1 0 k hk hk0
  exact ⟨hh.1, hh.2, ha.1, ha.2⟩

/-- Witness for `rtp_within_play_increments` at a concrete 161-sample
playback: packets (1, 0, 160) then (2, 160, 1). -/
theorem rtp_within_play_increments_witness :
    (playAudioBlockingPackets (List.replicate 161 0)).map RTPOut.seq =
        [1, 2] ∧
      ((playAudioBlockingPackets (List.replicate 161 0)).get
          ⟨1, by decide⟩).seq =
        (((playAudioBlockingPackets (List.replicate 161 0)).get
            ⟨0, by decide⟩).seq + 1) % 65536 := by
  exact ⟨by decide,
    (rtp_within_play_increments (List.replicate 161 0) 0 (by decide)
      (by decide) (by decide)).2.2.1⟩

/-! ## `playTTSAudio` (ai_phone_audio.go and the `cmd/server/main.go` copy)

Both versions guard `if text == "" { return nil }` before calling the TTS
service; `callTTSService` is modelled as an environment function. -/

/-- Observable trace of one `playTTSAudio` call. -/
structure PlayTTSTrace where
  ttsCalls : List (String × String)
  packets : List RTPOut
  errorMsg : Option String
  deriving DecidableEq

/-- `engine.playTTSAudio`: empty text returns `nil` at once; otherwise the
TTS service is called and, on success, the audio is sent through
`playAudioBlocking`. -/
def playTTSAudio (synth : String → String → Except String (List Int))
    (text speakerID : String) : PlayTTSTrace :=
  if text == "" then ⟨[], [], none⟩
  else
    match synth text speakerID with
    | .error e =>
      ⟨[(text, speakerID)], [], some ("TTS service failed: " ++ e)⟩
    | .ok audioData =>
      ⟨[(text, speakerID)], playAudioBlockingPackets audioData, none⟩

/-- C10: `playTTSAudio` with an empty text succeeds immediately, calling
no TTS service and sending no RTP packet; `playAudioBlocking` with an
empty sample slice likewise sends nothing and returns `nil`. -/
theorem empty_text_plays_nothing
    (synth : String → String → Except String (List Int))
    (speakerID : String) :
    playTTSAudio synth "" speakerID = ⟨[], [], none⟩ ∧
      playAudioBlockingPackets [] = [] := by
  exact ⟨rfl, rfl⟩

/-! ## Phone-number → script resolution (`part_003` models and `StartScript`)

`models.GetAIPhoneScriptByPhone` runs
`Where("phone_number = ? AND enabled = ?", phoneNumber, true).First` over
the mapping table (with the script association preloaded) and returns the
mapping's script.  The query filters only on the mapping's phone number
and `enabled` flag — not on the script's status, the mapping's priority,
or its time/weekday columns.  The table is modelled as a list in
primary-key order, `First` as `find?`. -/

/-- `models.ScriptPhoneMapping` restricted to the fields the resolver
reads, with the preloaded script. -/
structure ScriptPhoneMapping where
  phoneNumber : String
  enabled : Bool
  priority : Int
  script : AIPhoneScript
  deriving DecidableEq

/-- `models.GetAIPhoneScriptByPhone`.  (In Go a missing row surfaces as a
GORM error and `StartScript` returns it; both the error and the nil-script
guard are modelled as `none`.) -/
def GetAIPhoneScriptByPhone (mappings : List ScriptPhoneMapping)
    (phoneNumber : String) : Option AIPhoneScript :=
  (mappings.find? fun m => m.phoneNumber == phoneNumber && m.enabled).map
    fun m => m.script

/-- The session state `StartScript` builds before spawning
`executeScript`. -/
structure StartedSession where
  script : AIPhoneScript
  currentStep : ScriptStep
  status : SessionStatus
  deriving DecidableEq

/-- `engine.StartScript`: resolve the script by the dialled number, fail
when none resolves or its start step is missing, otherwise create the
session in status `starting` positioned at the start step.  No check of
the script's status is performed. -/
def StartScript (mappings : List ScriptPhoneMapping)
    (phoneNumber : String) : Except String StartedSession :=
  match GetAIPhoneScriptByPhone mappings phoneNumber with
  | none => .error ("no script found for phone number: " ++ phoneNumber)
  | some script =>
    match script.GetStartStep with
    | none => .error ("start step not found: " ++ script.startStepID)
    | some startStep => .ok ⟨script, startStep, .starting⟩

/-- A script still in `draft` status, with a valid start step. -/
def draftScript : AIPhoneScript :=
  { name := "就业需求调查", status := .draft, startStepID := "welcome",
    steps := [⟨"welcome", .callout, {}⟩] }

/-- A single enabled phone mapping pointing at the draft script. -/
def draftMappings : List ScriptPhoneMapping :=
  [⟨"10086", true, 0, draftScript⟩]

/-- C4 counterexample: an enabled mapping whose script is in `draft`
status resolves and starts — the resolver returns the draft script and
`StartScript` dispatches it, so non-active scripts are dispatched to
callers. -/
theorem draft_script_dispatched_cex :
    GetAIPhoneScriptByPhone draftMappings "10086" = some draftScript ∧
      StartScript draftMappings "10086" =
        .ok ⟨draftScript, ⟨"welcome", .callout, {}⟩, .starting⟩ ∧
      draftScript.status ≠ .active := by
  refine ⟨by decide, by decide, by decide⟩

/-- C4 (amended): the resolver returns the first mapping row matching the
phone number with `enabled = true`, whatever the script's status, and
`StartScript` dispatches that script whenever its start step exists — the
script status is never consulted on this path. -/
theorem resolver_ignores_script_status (mappings : List ScriptPhoneMapping)
    (phoneNumber : String) (m : ScriptPhoneMapping) (startStep : ScriptStep)
    (hfind : (mappings.find? fun m2 =>
        m2.phoneNumber == phoneNumber && m2.enabled) = some m)
    (hstart : m.script.GetStartStep = some startStep) :
    GetAIPhoneScriptByPhone mappings phoneNumber = some m.script ∧
      StartScript mappings phoneNumber =
        .ok ⟨m.script, startStep, .starting⟩ := by
  constructor
  · simp [GetAIPhoneScriptByPhone, hfind]
  · simp [StartScript, GetAIPhoneScriptByPhone, hfind, hstart]

/-- Witness for `resolver_ignores_script_status` at the draft-script
mapping. -/
theorem resolver_ignores_script_status_witness :
    GetAIPhoneScriptByPhone draftMappings "10086" = some draftScript ∧
      StartScript draftMappings "10086" =
        .ok ⟨draftScript, ⟨"welcome", .callout, {}⟩, .starting⟩ := by
  exact resolver_ignores_script_status draftMappings "10086"
    ⟨"10086", true, 0, draftScript⟩ ⟨"welcome", .callout, {}⟩
    (by decide) (by decide)

/-! ## ACK promotion (`handleAck`, func_register.go; tables in `part_005`)

`handleAck` looks up the pending dialog, removes it, resolves the stored
peer address, stores an active session (`SaveActiveSession` writes the map
entry unconditionally), and starts the AI script; when no engine or
number is present, or `StartScript` fails, `hangupCall` tears the session
down again.  `ua.UAConfig.MaxConcurrentSessions` exists in the
configuration but is read nowhere on this path. -/

/-- The session tables of `ua.UAConfig` as read by `handleAck`, with the
configured session bound.  Active sessions are reduced to their peer RTP
address. -/
structure UAState where
  maxConcurrentSessions : Int
  pendingSessions : List (String × String)
  activeSessions : List (String × String)
  deriving DecidableEq

/-- `ua.GetPendingSession` (memory back-end). -/
def getPendingSession (st : UAState) (callID : String) : Option String :=
  (st.pendingSessions.find? fun p => p.1 == callID).map Prod.snd

/-- `ua.RemovePendingSession` (memory back-end). -/
def removePendingSession (st : UAState) (callID : String) : UAState :=
  { st with pendingSessions := st.pendingSessions.filter fun p =>
      p.1 != callID }

/-- Go map write for the active-session table. -/
def activeSet : List (String × String) → String → String →
    List (String × String)
  | [], callID, addr => [(callID, addr)]
  | (k2, v2) :: rest, callID, addr =>
    if k2 == callID then (callID, addr) :: rest
    else (k2, v2) :: activeSet rest callID addr

/-- `ua.SaveActiveSession`: unconditional map assignment under the lock. -/
def SaveActiveSession (st : UAState) (callID addr : String) : UAState :=
  { st with activeSessions := activeSet st.activeSessions callID addr }

/-- `ua.GetActiveSession`. -/
def getActiveSession (st : UAState) (callID : String) : Option String :=
  (st.activeSessions.find? fun p => p.1 == callID).map Prod.snd

/-- `ua.RemoveActiveSession`. -/
def removeActiveSession (st : UAState) (callID : String) : UAState :=
  { st with activeSessions := st.activeSessions.filter fun p =>
      p.1 != callID }

/-- `SipServer.hangupCall`: clear the pending and active entries for the
call (the SIP BYE itself is unimplemented in the source). -/
def hangupCall (st : UAState) (callID : String) : UAState :=
  removeActiveSession (removePendingSession st callID) callID

/-- External outcomes inside `handleAck`. -/
structure AckEnv where
  resolveOk : Bool
  aiEnginePresent : Bool
  startScriptOk : Bool

/-- `SipServer.handleAck`, session-table effects: a missing pending dialog
drops the ACK; otherwise the pending entry is removed, the peer address
resolved (failure stops here), the active session saved unconditionally,
and the script started (no engine, empty dialled number, or a start
failure hangs the call up again).  At no point is
`maxConcurrentSessions` compared with the table size. -/
def handleAck (st : UAState) (env : AckEnv) (callID phoneNumber : String) :
    UAState :=
  match getPendingSession st callID with
  | none => st
  | some clientRTPAddr =>
    let st1 := removePendingSession st callID
    if !env.resolveOk then st1
    else
      let st2 := SaveActiveSession st1 callID clientRTPAddr
      if env.aiEnginePresent && phoneNumber != "" then
        if env.startScriptOk then st2 else hangupCall st2 callID
      else hangupCall st2 callID

/-- Reading the entry just saved by `SaveActiveSession`. -/
theorem getActive_saveActive_self (st : UAState) (callID addr : String) :
    getActiveSession (SaveActiveSession st callID addr) callID =
      some addr := by
  show (activeSet st.activeSessions callID addr |>.find? fun p =>
      p.1 == callID).map Prod.snd = some addr
  induction st.activeSessions with
  | nil => simp [activeSet, List.find?]
  | cons p rest ih =>
    obtain ⟨k2, v2⟩ := p
    by_cases h : k2 == callID
    · simp [activeSet, h, List.find?]
    · simp only [activeSet, h, Bool.false_eq_true, if_false]
      simp only [List.find?, h]
      exact ih

/-- A UA state whose active-session table has already reached the
configured bound of one session, with a second dialog pending. -/
def overCapState : UAState :=
  ⟨1, [("call-2", "198.51.100.7:40000")], [("call-1", "203.0.113.9:30000")]⟩

/-- An ACK environment in which everything succeeds. -/
def allOkAckEnv : AckEnv := ⟨true, true, true⟩

/-- C7 counterexample: with the active table already at
`maxConcurrentSessions = 1`, the ACK for a second call is still promoted:
the pending dialog becomes an active session and the table grows to 2
entries, exceeding the bound — nothing rejects the ACK or tears the
dialog down. -/
theorem ack_over_capacity_promoted_cex :
    getActiveSession (handleAck overCapState allOkAckEnv "call-2" "10086")
        "call-2" = some "198.51.100.7:40000" ∧
      ((handleAck overCapState allOkAckEnv "call-2"
          "10086").activeSessions.length : Int) =
        overCapState.maxConcurrentSessions + 1 ∧
      (handleAck overCapState allOkAckEnv "call-2"
          "10086").pendingSessions = [] := by
  refine ⟨by decide, by decide, by decide⟩

/-- C7 (amended): `handleAck` promotes every ACK that matches a pending
dialog — whenever the address resolves, the engine is present, the
dialled number is non-empty and the script starts, the call ends up in
the active-session table, with no comparison against
`maxConcurrentSessions` and regardless of the current table size. -/
theorem ack_promotion_ignores_bound (st : UAState) (env : AckEnv)
    (callID phoneNumber addr : String)
    (hpend : getPendingSession st callID = some addr)
    (hres : env.resolveOk = true)
    (heng : env.aiEnginePresent = true)
    (hphone : (phoneNumber != "") = true)
    (hstart : env.startScriptOk = true) :
    getActiveSession (handleAck st env callID phoneNumber) callID =
      some addr := by
  simp only [handleAck, hpend, hres, heng, hphone, hstart, Bool.not_true,
    Bool.false_eq_true, if_false, Bool.and_self, if_true]
  exact getActive_saveActive_self (removePendingSession st callID) callID
    addr

/-- Witness for `ack_promotion_ignores_bound` at the over-capacity
state. -/
theorem ack_promotion_ignores_bound_witness :
    getActiveSession (handleAck overCapState allOkAckEnv "call-2" "10086")
      "call-2" = some "198.51.100.7:40000" := by
  exact ack_promotion_ignores_bound overCapState allOkAckEnv "call-2"
    "10086" "198.51.100.7:40000" (by decide) (by decide) (by decide)
    (by decide) (by decide)

end LingSIP
